import Mathlib

/-
Shallow embedding of the circuit transform geometry and gate evaluation
model of the rls repository (src/src/circuits/mod.rs and
src/src/circuits/gates/*.rs), with theorems settling the spec claims.
-/

namespace Rls

/-- Modelled from the spec: grid positions and footprint sizes are
two-dimensional usize vectors (the vector module is not under src/);
machine words never overflow here because all arithmetic stays within
footprint bounds. -/
structure Vec2usize where
  x : Nat
  y : Nat
  deriving DecidableEq, Repr

/-- Source: Vec2usize swapped exchanges the two components
(used by CircuitTransform::transform_size). -/
def Vec2usize.swapped (v : Vec2usize) : Vec2usize :=
  ⟨v.y, v.x⟩

/-- Modelled from the spec: the Direction4 type is not under src/.
Rotation quadrants are indexed counter-clockwise Up→Left→Down→Right. -/
inductive Direction4 where
  | Up
  | Left
  | Down
  | Right
  deriving DecidableEq, Repr

/-- Counter-clockwise quadrant index of a Direction4 (Up→Left→Down→Right). -/
def Direction4.index : Direction4 → Nat
  | .Up => 0
  | .Left => 1
  | .Down => 2
  | .Right => 3

/-- Direction4 from a counter-clockwise quadrant index, modulo 4. -/
def Direction4.ofIndex (n : Nat) : Direction4 :=
  match n % 4 with
  | 0 => .Up
  | 1 => .Left
  | 2 => .Down
  | _ => .Right

/-- Modelled from the spec: Up and Down are the vertical directions. -/
def Direction4.is_vertical : Direction4 → Bool
  | .Up => true
  | .Down => true
  | .Left => false
  | .Right => false

/-- Modelled from the spec: the Direction4 operations are not under src/.
With counter-clockwise quadrant indexing, a.rotated_counterclockwise_by b
is the counter-clockwise quadrant difference taking b to a; it is the
identity quadrant Up exactly when a = b, matching the renderer's rule that
dir equal to default_dir means no rotation is applied. -/
def Direction4.rotated_counterclockwise_by (a b : Direction4) : Direction4 :=
  Direction4.ofIndex (a.index + 4 - b.index)

/-- Modelled from the spec: the Direction8 type (8-way pin directions) is
not under src/. Indexed counter-clockwise starting at Up. -/
inductive Direction8 where
  | Up
  | UpLeft
  | Left
  | DownLeft
  | Down
  | DownRight
  | Right
  | UpRight
  deriving DecidableEq, Repr

/-- Counter-clockwise index of a Direction8 starting at Up. -/
def Direction8.index : Direction8 → Nat
  | .Up => 0
  | .UpLeft => 1
  | .Left => 2
  | .DownLeft => 3
  | .Down => 4
  | .DownRight => 5
  | .Right => 6
  | .UpRight => 7

/-- Direction8 from a counter-clockwise index, modulo 8. -/
def Direction8.ofIndex (n : Nat) : Direction8 :=
  match n % 8 with
  | 0 => .Up
  | 1 => .UpLeft
  | 2 => .Left
  | 3 => .DownLeft
  | 4 => .Down
  | 5 => .DownRight
  | 6 => .Right
  | _ => .UpRight

/-- Modelled from the spec: reflection of an 8-way direction across the
axis through the given direction (Direction8 is not under src/). -/
def Direction8.flip_by (d axis : Direction8) : Direction8 :=
  Direction8.ofIndex (2 * axis.index + 8 - d.index)

/-- Modelled from the spec: the opposite 8-way direction. -/
def Direction8.inverted (d : Direction8) : Direction8 :=
  Direction8.ofIndex (d.index + 4)

/-- Modelled from the spec: rotate an 8-way direction clockwise by the
counter-clockwise index of another (Direction8 is not under src/). -/
def Direction8.rotated_clockwise_by (d b : Direction8) : Direction8 :=
  Direction8.ofIndex (d.index + 8 - b.index)

/-- Modelled from the spec: embedding of a quadrant direction into the
8-way directions (the Rust side converts with .into()). -/
def Direction4.toDirection8 : Direction4 → Direction8
  | .Up => .Up
  | .Left => .Left
  | .Down => .Down
  | .Right => .Right

/-- Source: enum TransformSupport (src/src/circuits/mod.rs, lines 162-166). -/
inductive TransformSupport where
  | Automatic
  | Manual
  deriving DecidableEq, BEq, Repr

/-- Source: enum FlipType (src/src/circuits/mod.rs, lines 168-173). -/
inductive FlipType where
  | Vertical
  | Horizontal
  | Both
  deriving DecidableEq, Repr

/-- Source: struct CircuitRotationSupport (src/src/circuits/mod.rs, lines 175-179). -/
structure CircuitRotationSupport where
  support : TransformSupport
  default_dir : Direction4
  deriving DecidableEq, Repr

/-- Source: struct CircuitFlipSupport (src/src/circuits/mod.rs, lines 181-185). -/
structure CircuitFlipSupport where
  support : TransformSupport
  ty : FlipType
  deriving DecidableEq, Repr

/-- Source: struct CircuitTransformSupport (src/src/circuits/mod.rs, lines 187-191). -/
structure CircuitTransformSupport where
  rotation : Option CircuitRotationSupport
  flip : Option CircuitFlipSupport
  deriving DecidableEq, Repr

/-- Source: CircuitTransformSupport::rotation_default_dir
(src/src/circuits/mod.rs, lines 194-200). -/
def CircuitTransformSupport.rotation_default_dir (self : CircuitTransformSupport)
    (support : Option TransformSupport) : Option Direction4 :=
  match self.rotation with
  | none => none
  | some rot =>
    if support.any (fun s => rot.support != s) then none
    else some rot.default_dir

/-- Source: CircuitTransformSupport::flip_type
(src/src/circuits/mod.rs, lines 202-208). -/
def CircuitTransformSupport.flip_type (self : CircuitTransformSupport)
    (support : Option TransformSupport) : Option FlipType :=
  match self.flip with
  | none => none
  | some flip =>
    if support.any (fun s => flip.support != s) then none
    else some flip.ty

/-- Source: struct CircuitTransform (src/src/circuits/mod.rs, lines 211-216). -/
structure CircuitTransform where
  support : CircuitTransformSupport
  dir : Direction4
  flip : Bool
  deriving DecidableEq, Repr

/-- Source: rotate_pos (src/src/circuits/mod.rs, lines 438-445). -/
def rotate_pos (pos target_size : Vec2usize) (dir : Direction4) : Vec2usize :=
  match dir with
  | .Up => pos
  | .Left => ⟨pos.y, target_size.y - pos.x - 1⟩
  | .Down => ⟨target_size.x - pos.x - 1, target_size.y - pos.y - 1⟩
  | .Right => ⟨target_size.x - pos.y - 1, pos.x⟩

/-- Source: CircuitTransform::transform_size (src/src/circuits/mod.rs, lines 218-228). -/
def CircuitTransform.transform_size (self : CircuitTransform) (size : Vec2usize)
    (support : Option TransformSupport) : Vec2usize :=
  match self.support.rotation_default_dir support with
  | none => size
  | some default_dir =>
    if default_dir.is_vertical == self.dir.is_vertical then size else size.swapped

/-- Source: CircuitTransform::transform_pos (src/src/circuits/mod.rs, lines 230-260). -/
def CircuitTransform.transform_pos (self : CircuitTransform) (size pos : Vec2usize)
    (support : Option TransformSupport) : Vec2usize :=
  let flip := if self.flip then self.support.flip_type support else none
  let flipped_pos :=
    match flip with
    | none => pos
    | some .Vertical => ⟨pos.x, size.y - pos.y - 1⟩
    | some .Horizontal => ⟨size.x - pos.x - 1, pos.y⟩
    | some .Both => ⟨size.x - pos.x - 1, size.y - pos.y - 1⟩
  match self.support.rotation_default_dir support with
  | none => flipped_pos
  | some default_dir =>
    let dir := self.dir.rotated_counterclockwise_by default_dir
    let transformed_size :=
      if default_dir.is_vertical == self.dir.is_vertical then size else size.swapped
    rotate_pos flipped_pos transformed_size dir

/-- Source: CircuitTransform::backtransform_pos (src/src/circuits/mod.rs,
lines 262-286). The FlipType::Both arm reads `size.y - pos.y - 1` from the
untransformed argument `pos` in the source, not from `rotated_pos`; the
embedding keeps that reading. -/
def CircuitTransform.backtransform_pos (self : CircuitTransform) (size pos : Vec2usize)
    (support : Option TransformSupport) : Vec2usize :=
  let rotated_pos :=
    match self.support.rotation_default_dir support with
    | none => pos
    | some default_dir =>
      let dir := default_dir.rotated_counterclockwise_by self.dir
      rotate_pos pos size dir
  let flip := if self.flip then self.support.flip_type support else none
  match flip with
  | none => rotated_pos
  | some .Vertical => ⟨rotated_pos.x, size.y - rotated_pos.y - 1⟩
  | some .Horizontal => ⟨size.x - rotated_pos.x - 1, rotated_pos.y⟩
  | some .Both => ⟨size.x - rotated_pos.x - 1, size.y - pos.y - 1⟩

/-- Source: CircuitTransform::transform_dir (src/src/circuits/mod.rs, lines 288-307). -/
def CircuitTransform.transform_dir (self : CircuitTransform) (dir : Direction8)
    (support : Option TransformSupport) : Direction8 :=
  let flip := if self.flip then self.support.flip_type support else none
  let flipped :=
    match flip with
    | none => dir
    | some .Vertical => dir.flip_by .Left
    | some .Horizontal => dir.flip_by .Up
    | some .Both => dir.inverted
  match self.support.rotation_default_dir support with
  | none => flipped
  | some default_dir =>
    let d := self.dir.rotated_counterclockwise_by default_dir
    flipped.rotated_clockwise_by d.toDirection8

/-- Source: struct GateOutput of the gates module (not under src/, but its
shape is fixed by the gate files, which construct it with fields out and fin). -/
structure GateOutput where
  out : Bool
  fin : Bool
  deriving DecidableEq, Repr

/-- Source: Or::init_state (src/src/circuits/gates/or.rs). -/
def Or.init_state : Bool := false

/-- Source: Or::fold (src/src/circuits/gates/or.rs, lines 31-43). The Rust
fold takes the state by mutable reference and ignores it; the embedding
returns the (unchanged) state together with the GateOutput. -/
def Or.fold (state : Bool) (input : Bool) : Bool × GateOutput :=
  if input then (state, ⟨true, true⟩) else (state, ⟨false, false⟩)

/-- Source: Nand::init_state (src/src/circuits/gates/nand.rs). -/
def Nand.init_state : Bool := false

/-- Source: Nand::fold (src/src/circuits/gates/nand.rs, lines 25-37).
On a false input it returns out=true, fin=false; on a true input it
returns out=false, fin=true (identical to Nor::fold in the source). -/
def Nand.fold (state : Bool) (input : Bool) : Bool × GateOutput :=
  if !input then (state, ⟨true, false⟩) else (state, ⟨false, true⟩)

/-- Source: Nor::init_state (src/src/circuits/gates/nor.rs). -/
def Nor.init_state : Bool := false

/-- Source: Nor::fold (src/src/circuits/gates/nor.rs, lines 31-43). -/
def Nor.fold (state : Bool) (input : Bool) : Bool × GateOutput :=
  if !input then (state, ⟨true, false⟩) else (state, ⟨false, true⟩)

/-- Source: Xor::init_state (src/src/circuits/gates/xor.rs, lines 27-29). -/
def Xor.init_state : Bool := false

/-- Source: Xor::fold (src/src/circuits/gates/xor.rs, lines 32-41): a true
input toggles the state, and the output is the updated state; fin is
always false. -/
def Xor.fold (state : Bool) (input : Bool) : Bool × GateOutput :=
  let state' := if input then !state else state
  (state', ⟨state', false⟩)

/-- Source: Xnor::process (src/src/circuits/gates/xnor.rs, lines 30-36). -/
def Xnor.process (inputs : List Bool) (parity : Bool) : Bool :=
  let count := (inputs.filter (fun b => b)).length
  match parity with
  | false => count != 1
  | true => count % 2 != 1

/-- Modelled from the spec: the gate evaluation driver (the gates module
holding GateImpl and the code that folds one pass of inputs) is not under
src/. Per the spec, each input is folded in order against the persistent
state; settled=true (fin) ends the pass early with that output; otherwise
the output of the last fold stands, and a gate with zero inputs yields its
declared default state without settling. -/
def runFold (fold : Bool → Bool → Bool × GateOutput) (state : Bool) :
    List Bool → Bool
  | [] => state
  | input :: rest =>
    let r := fold state input
    if r.2.fin then r.2.out
    else
      match rest with
      | [] => r.2.out
      | _ :: _ => runFold fold r.1 rest

/-- Modelled from the spec: same driver as runFold, also reporting the
zero-based index of the input at which the gate settled, if any. -/
def runFoldAt (fold : Bool → Bool → Bool × GateOutput) (state : Bool)
    (l : List Bool) (k : Nat) : Bool × Option Nat :=
  match l with
  | [] => (state, none)
  | input :: rest =>
    let r := fold state input
    if r.2.fin then (r.2.out, some k)
    else
      match rest with
      | [] => (r.2.out, none)
      | _ :: _ => runFoldAt fold r.1 rest (k + 1)

/-
Helper lemmas.
-/

theorem runFold_cons_cons (fold : Bool → Bool → Bool × GateOutput)
    (st i j : Bool) (t : List Bool) :
    runFold fold st (i :: j :: t) =
      if (fold st i).2.fin then (fold st i).2.out
      else runFold fold (fold st i).1 (j :: t) := rfl

theorem runFold_or_eq (st : Bool) (l : List Bool) :
    runFold Or.fold st l = if l.isEmpty then st else l.any (fun b => b) := by
  induction l generalizing st with
  | nil => rfl
  | cons i rest ih =>
    cases rest with
    | nil => cases i <;> rfl
    | cons j t =>
      rw [runFold_cons_cons]
      cases i <;> simp [Or.fold, ih]

theorem runFold_nand_eq (st : Bool) (l : List Bool) :
    runFold Nand.fold st l = if l.isEmpty then st else !(l.any (fun b => b)) := by
  induction l generalizing st with
  | nil => rfl
  | cons i rest ih =>
    cases rest with
    | nil => cases i <;> rfl
    | cons j t =>
      rw [runFold_cons_cons]
      cases i <;> simp [Nand.fold, ih]

theorem runFold_nor_eq (st : Bool) (l : List Bool) :
    runFold Nor.fold st l = if l.isEmpty then st else !(l.any (fun b => b)) := by
  induction l generalizing st with
  | nil => rfl
  | cons i rest ih =>
    cases rest with
    | nil => cases i <;> rfl
    | cons j t =>
      rw [runFold_cons_cons]
      cases i <;> simp [Nor.fold, ih]

theorem runFold_xor_eq (st : Bool) (l : List Bool) :
    runFold Xor.fold st l = l.foldl Bool.xor st := by
  induction l generalizing st with
  | nil => rfl
  | cons i rest ih =>
    cases rest with
    | nil => cases i <;> simp [runFold, Xor.fold, Bool.xor]
    | cons j t =>
      rw [runFold_cons_cons]
      cases i <;> simp [Xor.fold, ih, Bool.xor]

instance : RightCommutative Bool.xor :=
  ⟨by decide⟩

theorem perm_any {l l' : List Bool} (h : l.Perm l') (p : Bool → Bool) :
    l.any p = l'.any p := by
  induction h with
  | nil => rfl
  | cons x _ ih => simp [ih]
  | swap x y t =>
    simp only [List.any_cons]
    cases p x <;> cases p y <;> simp
  | trans _ _ ih1 ih2 => rw [ih1, ih2]

theorem perm_isEmpty {l l' : List Bool} (h : l.Perm l') :
    l.isEmpty = l'.isEmpty := by
  have hl := h.length_eq
  cases l <;> cases l' <;> simp_all

theorem count_true_filter (l : List Bool) :
    (l.filter (fun b => b)).length = l.count true := by
  induction l with
  | nil => rfl
  | cons b t ih => cases b <;> simp [List.count_cons, ih]

end Rls

namespace Rls

/-
Claim theorems.
-/

/-- C1: the claimed round-trip invariant backtransform_pos(size,
transform_pos(size, p)) = p fails on the code: with automatic rotation
(default direction Up), automatic flip of type Both, transform direction
Left and flip flag set, on a 2×2 footprint the in-bounds position (0,0)
round-trips to (0,1), because the FlipType::Both arm of backtransform_pos
reads the y coordinate of the untransformed argument instead of the
unrotated one. -/
theorem backtransform_transform_not_id :
    (CircuitTransform.mk ⟨some ⟨.Automatic, .Up⟩, some ⟨.Automatic, .Both⟩⟩ .Left
        true).backtransform_pos ⟨2, 2⟩
      ((CircuitTransform.mk ⟨some ⟨.Automatic, .Up⟩, some ⟨.Automatic, .Both⟩⟩ .Left
        true).transform_pos ⟨2, 2⟩ ⟨0, 0⟩ (some .Automatic))
      (some .Automatic) = ⟨0, 1⟩ := by
  decide

/-- C2: Nand::fold does not settle on a false input (it returns fin=false,
out=true there) and instead settles with out=false the instant a true
input is seen, identically to Nor::fold; consequently the pass over
[true, false] yields false although one input is false (NAND would give
true). The code computes NOR, contradicting the claim. -/
theorem nand_fold_is_nor :
    (∀ st, Nand.fold st false = (st, ⟨true, false⟩)) ∧
    (∀ st, Nand.fold st true = (st, ⟨false, true⟩)) ∧
    runFold Nand.fold Nand.init_state [true, false] = false ∧
    (∀ st input, Nand.fold st input = Nor.fold st input) := by
  decide

/-- C3: Xnor::process returns, in parity mode, true exactly when the
number of true inputs is even, and in non-parity mode, true exactly when
that number is not one. -/
theorem xnor_process_spec (inputs : List Bool) :
    (Xnor.process inputs true = true ↔ inputs.count true % 2 = 0) ∧
    (Xnor.process inputs false = true ↔ inputs.count true ≠ 1) := by
  have h := count_true_filter inputs
  refine ⟨?_, ?_⟩
  · simp only [Xnor.process, h, bne_iff_ne, ne_eq]
    omega
  · simp only [Xnor.process, h, bne_iff_ne, ne_eq]

/-- C4: folding a permutation of an input list from the default state,
stopping when a fold settles, yields the same final output as folding the
original list, for the OR, NAND, NOR and XOR gate folds. -/
theorem gates_fold_order_independent (l l' : List Bool) (h : l.Perm l') :
    runFold Or.fold Or.init_state l' = runFold Or.fold Or.init_state l ∧
    runFold Nand.fold Nand.init_state l' = runFold Nand.fold Nand.init_state l ∧
    runFold Nor.fold Nor.init_state l' = runFold Nor.fold Nor.init_state l ∧
    runFold Xor.fold Xor.init_state l' = runFold Xor.fold Xor.init_state l := by
  have hemp := perm_isEmpty h
  have hany := perm_any h (fun b => b)
  refine ⟨?_, ?_, ?_, ?_⟩
  · rw [runFold_or_eq, runFold_or_eq, hemp, hany]
  · rw [runFold_nand_eq, runFold_nand_eq, hemp, hany]
  · rw [runFold_nor_eq, runFold_nor_eq, hemp, hany]
  · rw [runFold_xor_eq, runFold_xor_eq, h.foldl_eq Xor.init_state]

/-- Witness for C4 at the concrete permutation [true, false] ~ [false, true]. -/
theorem gates_fold_order_independent_witness :
    runFold Or.fold Or.init_state [false, true] =
      runFold Or.fold Or.init_state [true, false] ∧
    runFold Nand.fold Nand.init_state [false, true] =
      runFold Nand.fold Nand.init_state [true, false] ∧
    runFold Nor.fold Nor.init_state [false, true] =
      runFold Nor.fold Nor.init_state [true, false] ∧
    runFold Xor.fold Xor.init_state [false, true] =
      runFold Xor.fold Xor.init_state [true, false] :=
  gates_fold_order_independent [true, false] [false, true] (by decide)

/-- C5: Xor::fold never reports fin=true, toggles its state exactly when
the folded input is true, and outputs the updated parity bit. -/
theorem xor_fold_parity_step :
    ∀ st input,
      (Xor.fold st input).2.fin = false ∧
      (Xor.fold st input).1 = (if input then !st else st) ∧
      (Xor.fold st input).2.out = (Xor.fold st input).1 := by
  decide

/-- C6: the OR gate folded over [false, false, true] from the default
state yields output true, settling exactly at the third input (index 2);
a true input folded first settles immediately with output true, for any
state. -/
theorem or_fold_sequence :
    runFoldAt Or.fold Or.init_state [false, false, true] 0 = (true, some 2) ∧
    (∀ st, Or.fold st true = (st, ⟨true, true⟩)) ∧
    runFoldAt Or.fold Or.init_state [true, false, false] 0 = (true, some 0) := by
  decide

/-- C7: transform_size swaps width and height exactly when the transform
carries an applicable rotation whose default direction has a different
verticality than the transform's direction; otherwise the size is
unchanged. -/
theorem transform_size_swaps_iff_perpendicular
    (t : CircuitTransform) (size : Vec2usize) (filt : Option TransformSupport) :
    t.transform_size size filt =
      if ((t.support.rotation_default_dir filt).map
            (fun d => d.is_vertical != t.dir.is_vertical)).getD false
      then size.swapped else size := by
  unfold CircuitTransform.transform_size
  cases h : t.support.rotation_default_dir filt with
  | none => simp
  | some d =>
    simp only [Option.map_some, Option.getD_some]
    cases hv : d.is_vertical <;> cases hw : t.dir.is_vertical <;> simp [hv, hw]

/-- C8: the quadrant rotation formulas: Up is the identity, Left maps
(x, y) to (y, H − x − 1), Down to (W − x − 1, H − y − 1) and Right to
(W − y − 1, x), where (W, H) is the target footprint size; composing the
Left formula twice (through the swapped intermediate footprint) gives the
Down formula, consistent with the counter-clockwise quadrant indexing. -/
theorem rotate_pos_formulas (pos ts : Vec2usize) :
    rotate_pos pos ts .Up = pos ∧
    rotate_pos pos ts .Left = ⟨pos.y, ts.y - pos.x - 1⟩ ∧
    rotate_pos pos ts .Down = ⟨ts.x - pos.x - 1, ts.y - pos.y - 1⟩ ∧
    rotate_pos pos ts .Right = ⟨ts.x - pos.y - 1, pos.x⟩ ∧
    rotate_pos (rotate_pos pos ⟨ts.y, ts.x⟩ .Left) ts .Left = rotate_pos pos ts .Down :=
  ⟨rfl, rfl, rfl, rfl, rfl⟩

/-- C9: a circuit declaring Manual rotation and Manual flip support,
queried with the Automatic support filter (as blueprint recalculation
does), has the geometric formulas skipped: positions, the size and pin
directions all come back unchanged, whatever rotation or flip the
transform record carries. -/
theorem manual_support_skips_transform
    (dd : Direction4) (ft : FlipType) (dir : Direction4) (fl : Bool)
    (size pos : Vec2usize) (d : Direction8) :
    (CircuitTransform.mk ⟨some ⟨.Manual, dd⟩, some ⟨.Manual, ft⟩⟩ dir fl).transform_pos
        size pos (some .Automatic) = pos ∧
    (CircuitTransform.mk ⟨some ⟨.Manual, dd⟩, some ⟨.Manual, ft⟩⟩ dir fl).transform_size
        size (some .Automatic) = size ∧
    (CircuitTransform.mk ⟨some ⟨.Manual, dd⟩, some ⟨.Manual, ft⟩⟩ dir fl).transform_dir
        d (some .Automatic) = d := by
  cases fl <;> exact ⟨rfl, rfl, rfl⟩

/-- C10: the OR, NAND and NOR folds return their persistent state
unchanged for every state and input; among the fold-based gates only
Xor::fold changes its state (it does so on a true input). -/
theorem fold_state_frame :
    (∀ st input, (Or.fold st input).1 = st) ∧
    (∀ st input, (Nand.fold st input).1 = st) ∧
    (∀ st input, (Nor.fold st input).1 = st) ∧
    (∃ st input, (Xor.fold st input).1 ≠ st) := by
  decide

end Rls
